import Mathlib

/-!
# EGS Gateway Command Core — verification of the natural-language specification

Shallow embedding of the Emergency Guidance System control plane
(`gateway_service.py`, `complete_backend.py`) and proofs about it.

Conventions:
* Python strings are Lean `String`s; `str.strip()` is `String.trim`,
  `str.lower()`/`str.upper()` are `String.map Char.toLower` / `Char.toUpper`
  (all strings involved are ASCII).
* Wall-clock times are `Nat` (seconds); machine integers never overflow in
  this code path, so `Nat`/`Int` are used directly.
* Blocking reads, socket sends and lamp-send outcomes are modelled by
  explicit event lists / oracles passed to the embedded functions.
-/

namespace EGS

/-! ## Python string helpers -/

/-- `str.lower()` for the ASCII strings used by the backend. -/
def pyLower (s : String) : String := s.map Char.toLower

/-- `str.upper()` for the ASCII strings used by the backend. -/
def pyUpper (s : String) : String := s.map Char.toUpper

/-! ## Python `int(s, 16)`

`gateway_service._is_valid_frame_format` and `send_mask_command` parse the
mask field with Python's `int(field, 16)`.  That parser accepts surrounding
whitespace, an optional sign, an optional `0x`/`0X` prefix, hex digits of
either case, and single underscores between digits.  We embed that grammar
faithfully, returning `none` where Python raises `ValueError`. -/

/-- Value of one hexadecimal digit (either case), or `none`. -/
def hexDigitVal (c : Char) : Option Nat :=
  if '0' ≤ c ∧ c ≤ '9' then some (c.toNat - '0'.toNat)
  else if 'a' ≤ c ∧ c ≤ 'f' then some (c.toNat - 'a'.toNat + 10)
  else if 'A' ≤ c ∧ c ≤ 'F' then some (c.toNat - 'A'.toNat + 10)
  else none

/-- Continue a hex-digit run: digits, with single underscores allowed
between digits (Python's numeric-literal grammar). -/
def hexDigitsRest (acc : Nat) : List Char → Option Nat
  | [] => some acc
  | '_' :: rest =>
    match rest with
    | [] => none
    | c :: rest2 =>
      match hexDigitVal c with
      | none => none
      | some d => hexDigitsRest (acc * 16 + d) rest2
  | c :: rest =>
    match hexDigitVal c with
    | none => none
    | some d => hexDigitsRest (acc * 16 + d) rest

/-- A hex-digit run that must start with a digit (no leading underscore). -/
def hexDigitsStart : List Char → Option Nat
  | [] => none
  | '_' :: _ => none
  | c :: rest =>
    match hexDigitVal c with
    | none => none
    | some d => hexDigitsRest d rest

/-- Digits after a `0x`/`0X` prefix; Python also allows one underscore
directly after the prefix. -/
def hexDigitsAfterPrefix : List Char → Option Nat
  | '_' :: rest => hexDigitsStart rest
  | l => hexDigitsStart l

/-- The unsigned part of Python's base-16 integer grammar. -/
def hexUnsigned : List Char → Option Nat
  | '0' :: 'x' :: rest => hexDigitsAfterPrefix rest
  | '0' :: 'X' :: rest => hexDigitsAfterPrefix rest
  | l => hexDigitsStart l

/-- Python's `int(s, 16)`: `none` models `ValueError`. -/
def pythonIntHex (s : String) : Option Int :=
  match s.trim.data with
  | '+' :: rest => (hexUnsigned rest).map Int.ofNat
  | '-' :: rest => (hexUnsigned rest).map fun n => -(Int.ofNat n : Int)
  | l => (hexUnsigned l).map Int.ofNat

/-! ## Frame codec (`ESP32GatewayService`)

`__init__` builds `lamp_commands` (position 1-9 → ON/OFF character) and
`command_mapping` (lamp id 1-126 → device letter, position, characters). -/

/-- `lamp_commands[position]["on"]` from `__init__`. -/
def lamp_on_char : Nat → Char
  | 1 => 'b' | 2 => 'd' | 3 => 'f' | 4 => 'h' | 5 => 'j'
  | 6 => 'l' | 7 => 'n' | 8 => 'p' | 9 => 'r'
  | _ => ' '

/-- `lamp_commands[position]["off"]` from `__init__`. -/
def lamp_off_char : Nat → Char
  | 1 => 'a' | 2 => 'c' | 3 => 'e' | 4 => 'g' | 5 => 'i'
  | 6 => 'k' | 7 => 'm' | 8 => 'o' | 9 => 'q'
  | _ => ' '

/-- One entry of `command_mapping` built by `__init__`. -/
structure CommandMapEntry where
  device : Char
  lamp : Nat
  pole : Nat
  onChar : Char
  offChar : Char
  deriving Repr, DecidableEq

/-- `command_mapping[lamp_id]` for `lamp_id ∈ 1..126`:
`pole_id = ((lamp_id-1) // 9) + 1`, `lamp_position = ((lamp_id-1) % 9) + 1`,
`device_letter = chr(ord('A') + pole_id - 1)`. -/
def command_mapping (lamp_id : Nat) : Option CommandMapEntry :=
  if 1 ≤ lamp_id ∧ lamp_id ≤ 126 then
    let pole_id := ((lamp_id - 1) / 9) + 1
    let lamp_position := ((lamp_id - 1) % 9) + 1
    let device_letter := Char.ofNat ('A'.toNat + pole_id - 1)
    some { device := device_letter, lamp := lamp_position, pole := pole_id,
           onChar := lamp_on_char lamp_position, offChar := lamp_off_char lamp_position }
  else none

/-- The frame string built by `send_lamp_command(lamp_id, state, flash)`:
device letter, then the ON/OFF character, with `'#'` appended when
`flash and state`.  `none` models the early `return False` for a lamp id
outside `command_mapping`. -/
def send_lamp_frame (lamp_id : Nat) (state flash : Bool) : Option String :=
  match command_mapping lamp_id with
  | none => none
  | some m =>
    let base := [m.device, if state then m.onChar else m.offChar]
    some (String.mk (base ++ (if flash ∧ state then ['#'] else [])))

/-- The frame built by `send_all_command(device, state)`:
`'*'` for `"on"`, `'!'` for `"off"`. -/
def send_all_frame (device : Char) (isOn : Bool) : String :=
  String.mk [device, if isOn then '*' else '!']

/-- The 14 device letters `'ABCDEFGHIJKLMN'`. -/
def DEVICES : List Char := "ABCDEFGHIJKLMN".data

/-! ## Frame validator (`_is_valid_frame_format`) -/

/-- `_is_valid_frame_format(frame_str)`, translated branch by branch. -/
def is_valid_frame_format (frame_str : String) : Bool :=
  match frame_str.data with
  | [] => false                                   -- `if not frame_str`
  | [_] => false                                  -- `len < 2`
  | d :: rest =>
    if ¬ (d ∈ DEVICES) then false                 -- device letter check
    else
      match rest with
      | [c] => c ∈ "abcdefghijklmnopqr!*".data    -- 2-char commands
      | [c1, c2] =>                               -- 3-char commands
        if c1 = 'R' ∧ c2 ∈ "0123456789".data then true
        else if c2 = '#' ∧ c1 ∈ "abcdefghijklmnopqr".data then true
        else false
      | [c1, m1, m2, m3] =>                       -- 5-char mask commands
        if c1 = 'M' then
          match pythonIntHex (String.mk [m1, m2, m3]) with
          | none => false                         -- `except ValueError`
          | some mask_value =>
            if mask_value > 0x1FF then false else true
        else false
      | _ => false                                -- other lengths

/-- `send_mask_command(device, mask)` up to the point a frame is built:
`.error` models the early-return error dicts, `.ok` carries the frame
`f"{device}M{mask.upper()}"` that is then enqueued. -/
def send_mask_command (device : Char) (mask : String) : Except String String :=
  if ¬ (device ∈ DEVICES) then .error "Invalid device"
  else if mask.length ≠ 3 then .error "Invalid mask (3 hex chars)"
  else
    match pythonIntHex mask with
    | none => .error "Invalid hex mask"
    | some mask_int =>
      if mask_int < 0 ∨ mask_int > 0x1FF then .error "Mask out of range (000-1FF)"
      else .ok (String.mk (device :: 'M' :: (pyUpper mask).data))

/-! ## Zone mapping table (`complete_backend.get_zone_activation_commands`)

Python dicts preserve insertion order, so the command dict is embedded as an
association list in the order the source writes it. -/

/-- `get_zone_activation_commands(zone_name, wind_direction)`: the full
`zone_mappings` table, keyed by `zone_name.strip().lower()` and
`wind_direction.strip().upper()`; missing keys yield `{}` (here `[]`). -/
def get_zone_activation_commands (zone_name wind_direction : String) : List (Nat × Bool) :=
  let zone_key := pyLower zone_name.trim
  let wind := pyUpper wind_direction.trim
  if zone_key = "zone a" then
    if wind = "N-S" then [(6, true), (105, true)]
    else if wind = "S-N" then
      [(4, true), (13, true), (22, true), (31, true), (42, true), (52, true),
       (70, true), (79, true), (97, true)]
    else if wind = "E-W" then [(6, true), (105, true)]
    else if wind = "W-E" then
      [(4, true), (13, true), (22, true), (31, true), (42, true), (52, true),
       (70, true), (79, true), (97, true)]
    else []
  else if zone_key = "zone b" then
    if wind = "N-S" then [(6, true), (104, true)]
    else if wind = "S-N" then [(4, true), (15, true)]
    else if wind = "E-W" then [(4, true), (15, true)]
    else if wind = "W-E" then [(6, true), (104, true)]
    else []
  else if zone_key = "zone c" then
    if wind = "N-S" then [(4, true), (15, true)]
    else if wind = "S-N" then
      [(4, true), (13, true), (22, true), (31, true), (42, true), (54, true), (58, true)]
    else if wind = "E-W" then
      [(4, true), (13, true), (22, true), (31, true), (42, true), (54, true), (60, true)]
    else if wind = "W-E" then [(4, true), (15, true)]
    else []
  else if zone_key = "zone d" then
    if wind = "N-S" then [(6, true), (103, true)]
    else if wind = "S-N" then
      [(4, true), (13, true), (22, true), (31, true), (42, true), (52, true),
       (70, true), (81, true), (86, true)]
    else if wind = "E-W" then [(6, true), (103, true)]
    else if wind = "W-E" then
      [(4, true), (13, true), (22, true), (31, true), (42, true), (52, true),
       (70, true), (81, true), (86, true)]
    else []
  else if zone_key = "zone e" then
    if wind = "N-S" then [(5, true)]
    else if wind = "S-N" then [(4, true), (14, true)]
    else if wind = "E-W" then [(4, true), (14, true)]
    else if wind = "W-E" then [(5, true)]
    else []
  else if zone_key = "zone f" then
    if wind = "N-S" then [(6, true), (92, true), (103, true)]
    else if wind = "S-N" then
      [(4, true), (13, true), (22, true), (31, true), (42, true), (52, true),
       (70, true), (81, true), (83, true)]
    else if wind = "E-W" then [(6, true), (92, true), (103, true)]
    else if wind = "W-E" then
      [(4, true), (13, true), (22, true), (31, true), (42, true), (52, true),
       (70, true), (81, true), (86, true)]
    else []
  else if zone_key = "zone g" then
    if wind = "N-S" then [(6, true), (88, true), (92, true), (103, true)]
    else if wind = "S-N" then
      [(4, true), (22, true), (13, true), (31, true), (42, true), (52, true), (72, true)]
    else if wind = "E-W" then
      [(4, true), (22, true), (13, true), (31, true), (42, true), (52, true), (72, true)]
    else if wind = "W-E" then [(6, true), (88, true), (92, true), (103, true)]
    else []
  else if zone_key = "zone h" then
    if wind = "N-S" then [(4, true), (13, true), (22, true), (32, true)]
    else if wind = "S-N" then [(4, true), (13, true), (22, true), (32, true)]
    else if wind = "E-W" then [(4, true), (13, true), (23, true), (114, true)]
    else if wind = "W-E" then [(4, true), (13, true), (22, true), (32, true)]
    else []
  else if zone_key = "zone k" then
    if wind = "N-S" then [(4, true), (13, true), (23, true), (113, true)]
    else if wind = "S-N" then [(4, true), (13, true), (23, true), (114, true), (119, true)]
    else if wind = "E-W" then
      [(4, true), (13, true), (22, true), (31, true), (41, true), (126, true)]
    else if wind = "W-E" then [(4, true), (13, true), (23, true), (112, true)]
    else []
  else []

/-! ## Zone Registry and assertion state (`ESP32GatewayService`)

The mutable fields `active_zone`, `assertion_cancel_epoch` and
`ASSERTION_ENABLED`, with the operations that touch them translated from
the source.  All operations run under `zone_assertion_lock`, so they are
embedded as pure state transformers. -/

/-- The `active_zone` dict: `{zone_name, wind_direction, last_assert_time, commands}`. -/
structure ActiveZoneRec where
  zone_name : String
  wind_direction : String
  last_assert_time : Nat
  commands : List (Nat × Bool)
  deriving Repr, DecidableEq

/-- The registry/assertion slice of `ESP32GatewayService`'s mutable state. -/
structure GwState where
  active_zone : Option ActiveZoneRec
  assertion_cancel_epoch : Nat
  assertion_enabled : Bool
  deriving Repr, DecidableEq

/-- `register_active_zone(zone_name, wind_direction, zone_commands)`:
overwrites `active_zone` with the new record (`last_assert_time = now`).
The source does not touch `assertion_cancel_epoch` here. -/
def register_active_zone (zone_name wind_direction : String)
    (zone_commands : List (Nat × Bool)) (now : Nat) (s : GwState) : GwState :=
  let az : ActiveZoneRec :=
    { zone_name := zone_name.trim
      wind_direction := pyUpper wind_direction.trim
      last_assert_time := now
      commands := zone_commands }
  { s with active_zone := some az }

/-- `unregister_active_zone(zone_name, wind_direction)`: clears the zone
(and bumps the cancel epoch) unconditionally when both filters are `None`,
or only when the provided filters match. -/
def unregister_active_zone (zone_name wind_direction : Option String)
    (s : GwState) : GwState :=
  match s.active_zone with
  | none => s
  | some az =>
    let match_zone : Bool := match zone_name with
      | none => true
      | some z => pyLower az.zone_name == pyLower z.trim
    let match_wind : Bool := match wind_direction with
      | none => true
      | some w => pyUpper az.wind_direction == pyUpper w.trim
    if (zone_name.isSome || wind_direction.isSome) && !(match_zone && match_wind) then s
    else { s with active_zone := none,
                  assertion_cancel_epoch := s.assertion_cancel_epoch + 1 }

/-- `pause_assertion(reason)`: disables assertion and bumps the cancel epoch. -/
def pause_assertion (s : GwState) : GwState :=
  { s with assertion_enabled := false,
           assertion_cancel_epoch := s.assertion_cancel_epoch + 1 }

/-- `resume_assertion()`: re-enables assertion (epoch untouched). -/
def resume_assertion (s : GwState) : GwState :=
  { s with assertion_enabled := true }

/-- `clear_all_active_zones()`: clears the zone and bumps the cancel epoch
when a zone is present; no-op otherwise. -/
def clear_all_active_zones (s : GwState) : GwState :=
  match s.active_zone with
  | some _ => { s with active_zone := none,
                       assertion_cancel_epoch := s.assertion_cancel_epoch + 1 }
  | none => s

/-- STEP 1 of `complete_backend.send_zone_activation_commands`: under the
lock it assigns `gateway_service.active_zone = None` directly, without
touching the cancel epoch. -/
def activation_step1_unregister (s : GwState) : GwState :=
  { s with active_zone := none }

/-! ## SyncState and the deactivation orchestrator (`complete_backend`) -/

/-- The process-wide `_sync_state` dict. -/
structure SyncState where
  isActivated : Bool
  zoneName : Option String
  windDirection : Option String
  activationTime : Option String
  deactivationInProgress : Bool
  deriving Repr, DecidableEq

/-- Python truthiness of an optional string (`None` and `""` are falsy). -/
def truthyStr : Option String → Bool
  | none => false
  | some s => s ≠ ""

/-- The zone-selection logic of `api_deactivate_zone`: an explicit
`(zone_name, wind_direction)` pair from the request body wins; else the
active zone from `_sync_state` (when `isActivated`); else `none`, meaning
full system shutdown. -/
def deactivation_target (req : Option (Option String × Option String))
    (sync : SyncState) : Option (String × String) :=
  let req_zone := match req with | none => none | some (z, _) => z
  let req_wind := match req with | none => none | some (_, w) => w
  if truthyStr req_zone && truthyStr req_wind then
    some (req_zone.getD "", req_wind.getD "")
  else if truthyStr sync.zoneName && truthyStr sync.windDirection && sync.isActivated then
    some (sync.zoneName.getD "", sync.windDirection.getD "")
  else none

/-- The OFF command dict built by `send_zone_deactivation_commands`:
`{lamp_id: False for lamp_id in zone_commands.keys()}`.  The function has
the Lamp State Store available (the `db` argument here) but, per its own
docstring, never consults it: the OFF set comes from the static mapping
alone. -/
def send_zone_deactivation_off_commands (zone_name wind_direction : String)
    (db : Nat → Bool) : List (Nat × Bool) :=
  let _ := db   -- the store is in scope but deliberately unread
  (get_zone_activation_commands zone_name wind_direction).map fun p => (p.1, false)

/-- Modelled from the spec: `send_device_all_off(device)` is called by
`send_system_deactivation_commands` but is not defined anywhere in the
repository sources (only its call sites are).  Per the spec's "emit
device-wide `!` (all-off) to every device A…N" and the `send_all_command`
codec, it emits the single frame `<device>!` and reports that frame's
success. -/
def send_device_all_off (device : Char) : String :=
  send_all_frame device false

/-- `send_system_deactivation_commands()`: clears the active zone, then
loops over the 14 device letters emitting one all-off frame each; returns
`success_count > 0`.  `ack device` is the outcome of the device's frame. -/
def send_system_deactivation_commands (ack : Char → Bool) (s : GwState) :
    (List String × Bool) × GwState :=
  let s' := clear_all_active_zones s
  let frames := DEVICES.map send_device_all_off
  let success_count := (DEVICES.filter ack).length
  ((frames, success_count > 0), s')

/-- `api_deactivate_zone(req)`: pause assertion, capture the target zone,
set `deactivationInProgress`, clear the queue, dispatch the OFF sends, then
clear SyncState, clear the flag, and resume assertion.  The two send
helpers are oracles returning `.error` when they raise; on `.error` the
route's `except` block clears the SyncState activation fields and the flag
and re-raises — it does not resume assertion. -/
def api_deactivate_zone (req : Option (Option String × Option String))
    (send_zone_off : String → String → Except String Bool)
    (send_system_off : Except String Bool)
    (sync : SyncState) (gw : GwState) :
    (SyncState × GwState) × Except String Bool :=
  let gw1 := pause_assertion gw
  let sync1 := { sync with deactivationInProgress := true }
  let res := match deactivation_target req sync with
    | some (z, w) => send_zone_off z w
    | none => send_system_off
  match res with
  | .ok success =>
    let sync2 := { sync1 with isActivated := false, zoneName := none,
                              windDirection := none, activationTime := none }
    let sync3 := { sync2 with deactivationInProgress := false }
    let gw2 := resume_assertion gw1
    ((sync3, gw2), .ok success)
  | .error e =>
    let sync2 := { sync1 with isActivated := false, zoneName := none,
                              windDirection := none, activationTime := none,
                              deactivationInProgress := false }
    ((sync2, gw1), .error e)

/-! ## Command Pipeline worker (`_worker_loop`, `clear_command_queue`)

The worker's per-attempt ACK read loop reads one byte at a time until the
1200 ms deadline elapses.  A read returns data, an empty string (peer
closed), raises `socket.timeout` (retried until the deadline), or raises
another error.  The deadline is modelled by the finite event list: an
exhausted list is an elapsed deadline. -/

/-- One result of `self.socket.recv(1)` inside the ACK loop. -/
inductive RecvResult where
  | data (c : Char)
  | closed
  | sockTimeout
  | recvErr
  deriving Repr, DecidableEq

/-- How the per-attempt ACK read loop stopped. -/
inductive AckStop where
  | acked
  | peerClosed
  | timedOut
  | recvFailed
  deriving Repr, DecidableEq

/-- The ACK read loop of `_worker_loop`: discard non-`'K'` bytes, stop on
`'K'` (`acked`), on an empty read (`peerClosed`), on a non-timeout recv
error (`recvFailed`), or when the deadline elapses (`timedOut`);
`socket.timeout` continues the loop. -/
def ack_read_loop : List RecvResult → AckStop
  | [] => .timedOut
  | .data c :: rest => if c = 'K' then .acked else ack_read_loop rest
  | .closed :: _ => .peerClosed
  | .sockTimeout :: rest => ack_read_loop rest
  | .recvErr :: _ => .recvFailed

/-- One send attempt of `_worker_loop`: returns `(success, socket_closed)`.
`send_ok = false` models an exception from `sendall`/the attempt body,
whose handler closes the socket.  Inside the ACK loop itself the socket is
never closed, whatever ends the loop. -/
def worker_attempt (send_ok require_ack : Bool) (evs : List RecvResult) :
    Bool × Bool :=
  if ¬ send_ok then (false, true)
  else if ¬ require_ack then (true, false)
  else
    match ack_read_loop evs with
    | .acked => (true, false)
    | _ => (false, false)

/-- One worker attempt described by its environment: the send outcome and
the byte stream the ACK loop will see. -/
structure AttemptEnv where
  send_ok : Bool
  evs : List RecvResult

/-- The retry loop of `_worker_loop`: up to `RETRIES + 1 = 3` attempts;
`retries` counts failed attempts (a successful attempt `break`s before the
increment). -/
def worker_attempts (oracle : Nat → AttemptEnv) (require_ack : Bool) :
    Nat → Nat → Nat → Bool × Nat
  | 0, _, retries => (false, retries)
  | fuel + 1, i, retries =>
    let a := oracle i
    let (success, _closed) := worker_attempt a.send_ok require_ack a.evs
    if success then (true, retries)
    else worker_attempts oracle require_ack fuel (i + 1) (retries + 1)

/-- Processing of one dequeued `(frame, callback)` item by `_worker_loop`:
the returned list is the sequence of `callback(success, retries)`
invocations the item receives.  A frame shorter than 2 bytes is resolved
`(false, 0)` immediately; otherwise the item is resolved once with the
retry loop's outcome.  Exceptions inside an attempt are the oracle's
`send_ok = false`; the worker's outer handler lets no exception escape. -/
def worker_process_item (frame : String) (oracle : Nat → AttemptEnv)
    (require_ack : Bool) : List (Bool × Nat) :=
  if frame.length < 2 then [(false, 0)]
  else [worker_attempts oracle require_ack 3 0 0]

/-- `clear_command_queue()`: drains every pending item, resolving each with
`callback(False, 0)`; returns the resolutions and the cleared count. -/
def clear_command_queue (pending : List String) : List (Bool × Nat) × Nat :=
  (pending.map fun _ => (false, 0), pending.length)

/-! ## Assertion loop (`_zone_assertion_loop`)

One tick of the loop.  Other threads may mutate `ASSERTION_ENABLED`,
`assertion_cancel_epoch` and `active_zone` while the tick iterates, so the
values those re-checks observe are supplied by an environment oracle:
`env a i` is the state seen just before lamp index `i` of attempt `a`, and
`final_active` is the registry's `(zone, wind)` at the final
`last_assert_time` update check. -/

/-- The mutable state observed by one per-lamp re-check. -/
structure LampEnv where
  enabled : Bool
  epoch : Nat
  active : Option (String × String)
  deriving Repr, DecidableEq

/-- The three per-lamp re-checks, in source order: `ASSERTION_ENABLED`,
`token == assertion_cancel_epoch`, and that the registry still holds the
same `(zone_name, wind_direction)`. -/
def assertion_env_check (token : Nat) (zone wind : String) (e : LampEnv) : Bool :=
  e.enabled && (e.epoch == token) && (e.active == some (zone, wind))

/-- One lamp enqueue performed by an assertion attempt. -/
structure AssertSend where
  lamp_id : Nat
  state : Bool
  flash : Bool
  success : Bool
  deriving Repr, DecidableEq

/-- One assertion attempt: iterate the cached commands from index `i`;
before each lamp, re-check the environment and abort on failure; enqueue
only ids in `1..126`; the lamp equal to `last_lamp` (the highest ON id)
carries the flash flag. -/
def assertion_attempt (token : Nat) (zone wind : String) (last_lamp : Option Nat)
    (env : Nat → LampEnv) (send_ok : Nat → Bool) :
    Nat → List (Nat × Bool) → List AssertSend
  | _, [] => []
  | i, (lamp_id, state) :: rest =>
    if ¬ assertion_env_check token zone wind (env i) then []
    else if 1 ≤ lamp_id ∧ lamp_id ≤ 126 then
      { lamp_id := lamp_id, state := state,
        flash := (last_lamp == some lamp_id) && state,
        success := send_ok i } ::
        assertion_attempt token zone wind last_lamp env send_ok (i + 1) rest
    else assertion_attempt token zone wind last_lamp env send_ok (i + 1) rest

/-- `sent_count > 0` for one attempt's enqueues. -/
def assertion_sent_count (l : List AssertSend) : Nat :=
  (l.filter fun a => a.success).length

/-- The retry loop: up to `ASSERTION_RETRIES = 3` attempts; stop at the
first attempt with `sent_count > 0`. -/
def assertion_attempts (token : Nat) (zone wind : String) (last_lamp : Option Nat)
    (cmds : List (Nat × Bool)) (env : Nat → Nat → LampEnv)
    (send_ok : Nat → Nat → Bool) : Nat → Nat → List AssertSend × Bool
  | 0, _ => ([], false)
  | fuel + 1, a =>
    let e := assertion_attempt token zone wind last_lamp (env a) (send_ok a) 0 cmds
    if 0 < assertion_sent_count e then (e, true)
    else
      let res := assertion_attempts token zone wind last_lamp cmds env send_ok fuel (a + 1)
      (e ++ res.1, res.2)

/-- One tick of `_zone_assertion_loop`: skip when paused, when
`deactivationInProgress`, when no zone is registered, when less than
`ASSERTION_INTERVAL = 15` s have passed, or when no commands are cached;
otherwise run the attempts and, on success, set `last_assert_time` to the
tick's captured time — but only if the registry still holds the same zone
(`final_active`). -/
def zone_assertion_tick (deactivation_in_progress : Bool) (now : Nat) (s : GwState)
    (env : Nat → Nat → LampEnv) (send_ok : Nat → Nat → Bool)
    (final_active : Option (String × String)) : List AssertSend × GwState :=
  if ¬ s.assertion_enabled then ([], s)
  else if deactivation_in_progress then ([], s)
  else
    let token := s.assertion_cancel_epoch
    match s.active_zone with
    | none => ([], s)
    | some az =>
      if now - az.last_assert_time < 15 then ([], s)
      else if az.commands.isEmpty then ([], s)
      else
        let on_lamps := (az.commands.filter fun p => p.2).map fun p => p.1
        let last_lamp := on_lamps.max?
        let res :=
          assertion_attempts token az.zone_name az.wind_direction last_lamp
            az.commands env send_ok 3 0
        let s' :=
          if res.2 && (final_active == some (az.zone_name, az.wind_direction)) then
            { s with active_zone := some { az with last_assert_time := now } }
          else s
        (res.1, s')

/-! ## Theorems -/

/-- C7: deactivation with no argument while `(Zone G, S-N)` is the active
zone targets exactly that zone, and its OFF set is the seven lamps
`{4, 22, 13, 31, 42, 52, 72}` from the static mapping table — for every
possible content of the Lamp State Store, which is never read. -/
theorem C7_zone_g_unconditional_off :
    (∀ db : Nat → Bool,
      send_zone_deactivation_off_commands "Zone G" "S-N" db =
        [(4, false), (22, false), (13, false), (31, false), (42, false),
         (52, false), (72, false)])
    ∧ deactivation_target none
        { isActivated := true, zoneName := some "Zone G",
          windDirection := some "S-N", activationTime := some "t",
          deactivationInProgress := false } = some ("Zone G", "S-N") := by
  refine ⟨fun db => ?_, ?_⟩
  · with_unfolding_all rfl
  · with_unfolding_all rfl

/-- C8: for every lamp id in `1..126`, the lamp frame is the device letter
`chr('A' + (id-1) div 9)` followed by the ON/OFF character of position
`((id-1) mod 9) + 1`, with `'#'` appended iff the flash flag is set and the
state is ON; lamp 97 ON with flash yields `Kn#`. -/
theorem C8_lamp_frame_construction (lamp_id : Nat) (state flash : Bool)
    (h1 : 1 ≤ lamp_id) (h2 : lamp_id ≤ 126) :
    send_lamp_frame lamp_id state flash =
      some (String.mk ([Char.ofNat ('A'.toNat + (lamp_id - 1) / 9),
        if state then lamp_on_char (((lamp_id - 1) % 9) + 1)
        else lamp_off_char (((lamp_id - 1) % 9) + 1)] ++
        (if flash ∧ state then ['#'] else [])))
    ∧ send_lamp_frame 97 true true = some "Kn#" := by
  constructor
  · have hdev : 'A'.toNat + ((lamp_id - 1) / 9 + 1) - 1 = 'A'.toNat + (lamp_id - 1) / 9 := by
      omega
    simp only [send_lamp_frame, command_mapping, if_pos (And.intro h1 h2), hdev]
  · rfl

/-- C8 witness: lamp 97, ON, flash. -/
theorem C8_lamp_frame_construction_witness :
    send_lamp_frame 97 true true =
      some (String.mk ([Char.ofNat ('A'.toNat + (97 - 1) / 9),
        if true then lamp_on_char (((97 - 1) % 9) + 1)
        else lamp_off_char (((97 - 1) % 9) + 1)] ++
        (if true ∧ true then ['#'] else []))) :=
  (C8_lamp_frame_construction 97 true true (by decide) (by decide)).1

/-- C9: the frame validator rejects the empty string, any frame whose first
character is outside `A..N`, any 3-byte frame that is neither `<D>R<digit>`
nor `<D><lamp-char>#`, any 5-byte mask frame whose mask parses above
`0x1FF` (such as `200`), and any mask that is not parseable hex; it accepts
mask `1FF`. -/
theorem C9_frame_validator_boundaries :
    is_valid_frame_format "" = false
    ∧ (∀ (d : Char) (rest : List Char), d ∉ DEVICES →
        is_valid_frame_format (String.mk (d :: rest)) = false)
    ∧ (∀ d c1 c2 : Char, ¬ (c1 = 'R' ∧ c2 ∈ "0123456789".data) →
        ¬ (c2 = '#' ∧ c1 ∈ "abcdefghijklmnopqr".data) →
        is_valid_frame_format (String.mk [d, c1, c2]) = false)
    ∧ (∀ (d m1 m2 m3 : Char) (v : Int),
        pythonIntHex (String.mk [m1, m2, m3]) = some v → v > 0x1FF →
        is_valid_frame_format (String.mk [d, 'M', m1, m2, m3]) = false)
    ∧ (∀ d m1 m2 m3 : Char, pythonIntHex (String.mk [m1, m2, m3]) = none →
        is_valid_frame_format (String.mk [d, 'M', m1, m2, m3]) = false)
    ∧ is_valid_frame_format "AM200" = false
    ∧ is_valid_frame_format "AM1FF" = true := by
  refine ⟨rfl, ?_, ?_, ?_, ?_, by with_unfolding_all rfl, by with_unfolding_all rfl⟩
  · intro d rest hd
    match rest with
    | [] => rfl
    | c :: rest' =>
      simp only [is_valid_frame_format]
      rw [if_pos hd]
  · intro d c1 c2 h1 h2
    simp only [is_valid_frame_format]
    by_cases hd : d ∈ DEVICES
    · rw [if_neg (not_not_intro hd), if_neg h1, if_neg h2]
    · rw [if_pos hd]
  · intro d m1 m2 m3 v hv hgt
    simp only [is_valid_frame_format]
    by_cases hd : d ∈ DEVICES
    · rw [if_neg (not_not_intro hd), if_true, hv]
      show (if v > 0x1FF then false else true) = false
      rw [if_pos hgt]
    · rw [if_pos hd]
  · intro d m1 m2 m3 hv
    simp only [is_valid_frame_format]
    by_cases hd : d ∈ DEVICES
    · rw [if_neg (not_not_intro hd), if_true, hv]
    · rw [if_pos hd]

/-- C9 witness: concrete frames for each rejected shape and the accepted
mask `1FF`: device `O`, junk 3-byte `Ab1`, mask `200`, non-hex mask `GGG`. -/
theorem C9_frame_validator_boundaries_witness :
    is_valid_frame_format (String.mk ['O', 'b']) = false
    ∧ is_valid_frame_format (String.mk ['A', 'b', '1']) = false
    ∧ is_valid_frame_format (String.mk ['A', 'M', '2', '0', '0']) = false
    ∧ is_valid_frame_format (String.mk ['A', 'M', 'G', 'G', 'G']) = false :=
  ⟨C9_frame_validator_boundaries.2.1 'O' ['b'] (by decide),
   C9_frame_validator_boundaries.2.2.1 'A' 'b' '1' (by decide) (by decide),
   C9_frame_validator_boundaries.2.2.2.1 'A' '2' '0' '0' 512
     (by with_unfolding_all rfl) (by decide),
   C9_frame_validator_boundaries.2.2.2.2.1 'A' 'G' 'G' 'G'
     (by with_unfolding_all rfl)⟩

/-- C10 counterexample: the claim's clause that the `setDeviceMask` entry
point rejects masks with a sign character or lowercase hex is false:
`send_mask_command('A', '+99')` passes the range check and builds the frame
`AM+99`, and `send_mask_command('A', '1ff')` builds `AM1FF`. -/
theorem C10_set_device_mask_accepts_signed :
    send_mask_command 'A' "+99" = .ok "AM+99"
    ∧ send_mask_command 'A' "1ff" = .ok "AM1FF" := by
  constructor
  · with_unfolding_all rfl
  · with_unfolding_all rfl

/-- C10 (amended): the frame validator accepts 5-byte mask frames whose
mask field is not three uppercase hex digits in `000..1FF` — `AM-1F`,
`AM+99` and `AM1ff` all pass — because the field is parsed with
`int(field, 16)` and only the upper bound `0x1FF` is checked.  The separate
`send_mask_command` entry point rejects only negative masks such as `-1F`
before building a frame; it accepts `+99` (emitting `AM+99` as-is) and
`1ff` (uppercased to `AM1FF`). -/
theorem C10_validator_accepts_noncanonical_masks :
    is_valid_frame_format "AM-1F" = true
    ∧ is_valid_frame_format "AM+99" = true
    ∧ is_valid_frame_format "AM1ff" = true
    ∧ pythonIntHex "-1F" = some (-31)
    ∧ pythonIntHex "+99" = some 153
    ∧ pythonIntHex "1ff" = some 511
    ∧ send_mask_command 'A' "-1F" = .error "Mask out of range (000-1FF)"
    ∧ send_mask_command 'A' "+99" = .ok (String.mk ('A' :: 'M' :: (pyUpper "+99").data))
    ∧ send_mask_command 'A' "1ff" = .ok (String.mk ('A' :: 'M' :: (pyUpper "1ff").data)) := by
  refine ⟨?_, ?_, ?_, ?_, ?_, ?_, ?_, ?_, ?_⟩ <;> with_unfolding_all rfl

/-- C1: a deactivation request with no zone argument while SyncState holds
no active zone selects the full-shutdown path; that path emits exactly one
device-wide all-off frame `X!` per device for `X ∈ A..N`, in order, and
returns success iff at least one device's frame succeeded.
(`send_device_all_off` is modelled from the spec: only its call sites exist
in the sources.) -/
theorem C1_full_system_deactivation (ack : Char → Bool) (s : GwState)
    (sync : SyncState) (h : sync.isActivated = false) :
    deactivation_target none sync = none
    ∧ (send_system_deactivation_commands ack s).1.1 =
        ["A!", "B!", "C!", "D!", "E!", "F!", "G!", "H!", "I!", "J!", "K!", "L!", "M!", "N!"]
    ∧ ((send_system_deactivation_commands ack s).1.2 = true ↔
        ∃ d ∈ DEVICES, ack d = true) := by
  refine ⟨?_, by with_unfolding_all rfl, ?_⟩
  · simp [deactivation_target, truthyStr, h]
  · show decide ((DEVICES.filter ack).length > 0) = true ↔ ∃ d ∈ DEVICES, ack d = true
    rw [decide_eq_true_eq]
    constructor
    · intro hlen
      rcases List.exists_mem_of_length_pos hlen with ⟨d, hd⟩
      exact ⟨d, (List.mem_filter.mp hd).1, (List.mem_filter.mp hd).2⟩
    · rintro ⟨d, hd, hack⟩
      exact List.length_pos.mpr fun hnil =>
        (List.not_mem_nil d) (hnil ▸ List.mem_filter.mpr ⟨hd, hack⟩)

/-- C1 witness: every device ACKs; SyncState is fully idle. -/
theorem C1_full_system_deactivation_witness :
    deactivation_target none ⟨false, none, none, none, false⟩ = none
    ∧ (send_system_deactivation_commands (fun _ => true) ⟨none, 0, true⟩).1.1 =
        ["A!", "B!", "C!", "D!", "E!", "F!", "G!", "H!", "I!", "J!", "K!", "L!", "M!", "N!"]
    ∧ ((send_system_deactivation_commands (fun _ => true) ⟨none, 0, true⟩).1.2 = true ↔
        ∃ d ∈ DEVICES, (fun _ : Char => true) d = true) :=
  C1_full_system_deactivation (fun _ => true) ⟨none, 0, true⟩
    ⟨false, none, none, none, false⟩ rfl

/-- C2 counterexample: registering a new zone over an existing ActiveZone
leaves the cancel epoch unchanged (`register_active_zone` never touches
`assertion_cancel_epoch`), contrary to the claim. -/
theorem C2_register_does_not_bump_epoch :
    (⟨some ⟨"Zone A", "N-S", 0, [(6, true), (105, true)]⟩, 5, true⟩ :
        GwState).active_zone.isSome = true
    ∧ (register_active_zone "Zone B" "S-N" [(4, true), (15, true)] 100
        ⟨some ⟨"Zone A", "N-S", 0, [(6, true), (105, true)]⟩, 5, true⟩).assertion_cancel_epoch
      = 5 := by
  exact ⟨rfl, rfl⟩

/-- C2 (amended): the cancel epoch never decreases; it is incremented by
`unregister_active_zone` when it actually clears a zone, by
`clear_all_active_zones` when a zone is present, and by `pause_assertion`;
it is NOT incremented by `register_active_zone` (even over an existing
zone), nor by activation's direct clearing of the old zone, nor by
`resume_assertion`. -/
theorem C2_cancel_epoch_discipline :
    (∀ z w cmds now s,
      (register_active_zone z w cmds now s).assertion_cancel_epoch = s.assertion_cancel_epoch)
    ∧ (∀ s, (activation_step1_unregister s).assertion_cancel_epoch = s.assertion_cancel_epoch)
    ∧ (∀ s az, s.active_zone = some az →
        (unregister_active_zone none none s).assertion_cancel_epoch =
          s.assertion_cancel_epoch + 1)
    ∧ (∀ s az, s.active_zone = some az →
        (clear_all_active_zones s).assertion_cancel_epoch = s.assertion_cancel_epoch + 1)
    ∧ (∀ s, (pause_assertion s).assertion_cancel_epoch = s.assertion_cancel_epoch + 1)
    ∧ (∀ s, (resume_assertion s).assertion_cancel_epoch = s.assertion_cancel_epoch)
    ∧ (∀ zn wd s,
        s.assertion_cancel_epoch ≤ (unregister_active_zone zn wd s).assertion_cancel_epoch)
    ∧ (∀ s, s.assertion_cancel_epoch ≤ (clear_all_active_zones s).assertion_cancel_epoch) := by
  refine ⟨fun z w cmds now s => rfl, fun s => rfl, ?_, ?_, fun s => rfl, fun s => rfl, ?_, ?_⟩
  · intro s az h
    simp [unregister_active_zone, h]
  · intro s az h
    simp [clear_all_active_zones, h]
  · intro zn wd s
    unfold unregister_active_zone
    cases s.active_zone with
    | none => exact le_refl _
    | some az =>
      dsimp only
      split
      · exact le_refl _
      · exact Nat.le_succ _
  · intro s
    unfold clear_all_active_zones
    cases s.active_zone with
    | none => exact le_refl _
    | some az => exact Nat.le_succ _

/-- C2 witness: unconditional unregister on a state holding a zone bumps
the epoch from 5 to 6. -/
theorem C2_cancel_epoch_discipline_witness :
    (unregister_active_zone none none
      ⟨some ⟨"Zone A", "N-S", 0, []⟩, 5, true⟩).assertion_cancel_epoch = 6 :=
  C2_cancel_epoch_discipline.2.2.1
    ⟨some ⟨"Zone A", "N-S", 0, []⟩, 5, true⟩ ⟨"Zone A", "N-S", 0, []⟩ rfl

/-- C3 counterexample: when the OFF-send phase raises, `api_deactivate_zone`
propagates the error with assertion still paused — `resume_assertion` is
not called on the exception path, contrary to the claim. -/
theorem C3_error_path_leaves_assertion_paused :
    (api_deactivate_zone none (fun _ _ => .ok true) (.error "boom")
        ⟨false, none, none, none, false⟩ ⟨none, 0, true⟩).1.2.assertion_enabled = false
    ∧ (api_deactivate_zone none (fun _ _ => .ok true) (.error "boom")
        ⟨false, none, none, none, false⟩ ⟨none, 0, true⟩).2 = .error "boom" := by
  exact ⟨rfl, rfl⟩

/-- C3 (amended): if the deactivation operation raises any exception, it
still clears the SyncState activation fields and clears the
`deactivationInProgress` flag before propagating the error, but it does
NOT resume assertion: assertion remains paused. -/
theorem C3_exception_cleanup (req : Option (Option String × Option String))
    (send_zone_off : String → String → Except String Bool)
    (send_system_off : Except String Bool) (sync : SyncState) (gw : GwState)
    (e : String)
    (h : (api_deactivate_zone req send_zone_off send_system_off sync gw).2 = .error e) :
    (api_deactivate_zone req send_zone_off send_system_off sync gw).1.1.isActivated = false
    ∧ (api_deactivate_zone req send_zone_off send_system_off sync gw).1.1.zoneName = none
    ∧ (api_deactivate_zone req send_zone_off send_system_off sync gw).1.1.windDirection = none
    ∧ (api_deactivate_zone req send_zone_off send_system_off sync gw).1.1.activationTime = none
    ∧ (api_deactivate_zone req send_zone_off send_system_off sync gw).1.1.deactivationInProgress
        = false
    ∧ (api_deactivate_zone req send_zone_off send_system_off sync gw).1.2.assertion_enabled
        = false := by
  unfold api_deactivate_zone at h ⊢
  rcases hr : (match deactivation_target req sync with
    | some (z, w) => send_zone_off z w
    | none => send_system_off) with e' | success
  · simp only [hr]
    simp [pause_assertion]
  · simp only [hr] at h
    simp at h

/-- C3 witness: a raising system-off send over an idle state. -/
theorem C3_exception_cleanup_witness :
    (api_deactivate_zone none (fun _ _ => .error "io") (.error "io")
        ⟨true, some "Zone A", some "N-S", some "t", false⟩ ⟨none, 3, true⟩).1.1.isActivated
      = false
    ∧ (api_deactivate_zone none (fun _ _ => .error "io") (.error "io")
        ⟨true, some "Zone A", some "N-S", some "t", false⟩ ⟨none, 3, true⟩).1.1.zoneName
      = none
    ∧ (api_deactivate_zone none (fun _ _ => .error "io") (.error "io")
        ⟨true, some "Zone A", some "N-S", some "t", false⟩ ⟨none, 3, true⟩).1.1.windDirection
      = none
    ∧ (api_deactivate_zone none (fun _ _ => .error "io") (.error "io")
        ⟨true, some "Zone A", some "N-S", some "t", false⟩ ⟨none, 3, true⟩).1.1.activationTime
      = none
    ∧ (api_deactivate_zone none (fun _ _ => .error "io") (.error "io")
        ⟨true, some "Zone A", some "N-S", some "t", false⟩
        ⟨none, 3, true⟩).1.1.deactivationInProgress = false
    ∧ (api_deactivate_zone none (fun _ _ => .error "io") (.error "io")
        ⟨true, some "Zone A", some "N-S", some "t", false⟩
        ⟨none, 3, true⟩).1.2.assertion_enabled = false :=
  C3_exception_cleanup none (fun _ _ => .error "io") (.error "io")
    ⟨true, some "Zone A", some "N-S", some "t", false⟩ ⟨none, 3, true⟩ "io"
    (by with_unfolding_all rfl)

/-- C4 counterexample: on an empty read (peer closed) the per-attempt ACK
loop stops with failure but does NOT close the socket — the socket is
closed only by the attempt-level exception handler, contrary to the
claim's "closes the socket" clause. -/
theorem C4_empty_read_keeps_socket :
    ack_read_loop [RecvResult.closed] = AckStop.peerClosed
    ∧ worker_attempt true true [RecvResult.closed] = (false, false) := by
  exact ⟨rfl, rfl⟩

/-- C4 (amended): in ACK mode the per-attempt ACK read loop discards every
non-`K` byte, stops with success on `K`, stops with failure on an empty
read (peer closed) while keeping the socket open, and stops with a timeout
failure when the ACK deadline elapses (the discarded-event list is
exhausted). -/
theorem C4_ack_read_loop_behaviour (pre evs : List RecvResult)
    (h : ∀ e ∈ pre, e = RecvResult.sockTimeout ∨ ∃ c, e = RecvResult.data c ∧ c ≠ 'K') :
    ack_read_loop (pre ++ RecvResult.data 'K' :: evs) = AckStop.acked
    ∧ ack_read_loop (pre ++ RecvResult.closed :: evs) = AckStop.peerClosed
    ∧ ack_read_loop pre = AckStop.timedOut
    ∧ worker_attempt true true (pre ++ RecvResult.data 'K' :: evs) = (true, false)
    ∧ worker_attempt true true (pre ++ RecvResult.closed :: evs) = (false, false) := by
  have key : ∀ p : List RecvResult,
      (∀ e ∈ p, e = RecvResult.sockTimeout ∨ ∃ c, e = RecvResult.data c ∧ c ≠ 'K') →
      (∀ l, ack_read_loop (p ++ l) = ack_read_loop l)
        ∧ ack_read_loop p = AckStop.timedOut := by
    intro p
    induction p with
    | nil => exact fun _ => ⟨fun l => rfl, rfl⟩
    | cons e rest ih =>
      intro hp
      have hrest := ih fun x hx => hp x (List.mem_cons_of_mem _ hx)
      rcases hp e (List.mem_cons_self e rest) with he | ⟨c, hc, hck⟩
      · subst he
        exact ⟨fun l => by simpa [ack_read_loop] using hrest.1 l,
               by simpa [ack_read_loop] using hrest.2⟩
      · subst hc
        exact ⟨fun l => by simpa [ack_read_loop, hck] using hrest.1 l,
               by simpa [ack_read_loop, hck] using hrest.2⟩
  have h1 : ack_read_loop (pre ++ RecvResult.data 'K' :: evs) = AckStop.acked := by
    rw [(key pre h).1]
    simp [ack_read_loop]
  have h2 : ack_read_loop (pre ++ RecvResult.closed :: evs) = AckStop.peerClosed := by
    rw [(key pre h).1]
    simp [ack_read_loop]
  exact ⟨h1, h2, (key pre h).2,
         by simp [worker_attempt, h1],
         by simp [worker_attempt, h2]⟩

/-- C4 witness: junk byte `J`, a `socket.timeout`, then the stopping event. -/
theorem C4_ack_read_loop_behaviour_witness :
    ack_read_loop ([RecvResult.data 'J', RecvResult.sockTimeout] ++
        RecvResult.data 'K' :: [RecvResult.recvErr]) = AckStop.acked
    ∧ ack_read_loop ([RecvResult.data 'J', RecvResult.sockTimeout] ++
        RecvResult.closed :: [RecvResult.recvErr]) = AckStop.peerClosed
    ∧ ack_read_loop [RecvResult.data 'J', RecvResult.sockTimeout] = AckStop.timedOut
    ∧ worker_attempt true true ([RecvResult.data 'J', RecvResult.sockTimeout] ++
        RecvResult.data 'K' :: [RecvResult.recvErr]) = (true, false)
    ∧ worker_attempt true true ([RecvResult.data 'J', RecvResult.sockTimeout] ++
        RecvResult.closed :: [RecvResult.recvErr]) = (false, false) :=
  C4_ack_read_loop_behaviour [RecvResult.data 'J', RecvResult.sockTimeout]
    [RecvResult.recvErr]
    (by
      intro e he
      simp only [List.mem_cons, List.not_mem_nil, or_false] at he
      rcases he with he | he
      · exact Or.inr ⟨'J', by simp [he], by decide⟩
      · exact Or.inl he)

/-- C5: every item the worker dequeues receives exactly one completion
callback (whatever the frame, attempt outcomes and ACK mode, including the
short-frame early resolution), and `clear_command_queue` resolves each
drained item exactly once with `ok = false, retries = 0`; the worker's
outer handler means no path skips the resolution. -/
theorem C5_completion_resolved_exactly_once :
    (∀ (frame : String) (oracle : Nat → AttemptEnv) (require_ack : Bool),
      (worker_process_item frame oracle require_ack).length = 1)
    ∧ (∀ pending : List String,
        (clear_command_queue pending).1 = pending.map (fun _ => (false, 0))
        ∧ (clear_command_queue pending).1.length = pending.length) := by
  constructor
  · intro frame oracle require_ack
    unfold worker_process_item
    split
    · rfl
    · rfl
  · intro pending
    exact ⟨rfl, by simp [clear_command_queue]⟩

/-- Helper: an assertion attempt that sees a failed re-check at iteration
index `start + i` behaves as if the command list were truncated to its
first `i` entries: nothing at or past the failed check is enqueued. -/
theorem assertion_attempt_abort_take (token : Nat) (zone wind : String)
    (ll : Option Nat) (env : Nat → LampEnv) (so : Nat → Bool) :
    ∀ (cmds : List (Nat × Bool)) (start i : Nat),
      assertion_env_check token zone wind (env (start + i)) = false →
      assertion_attempt token zone wind ll env so start cmds =
        assertion_attempt token zone wind ll env so start (cmds.take i) := by
  intro cmds
  induction cmds with
  | nil =>
    intro start i h
    rw [List.take_nil]
  | cons c rest ih =>
    obtain ⟨lid, st⟩ := c
    intro start i h
    cases i with
    | zero =>
      have h0 : assertion_env_check token zone wind (env start) = false := by
        simpa using h
      simp [assertion_attempt, h0]
    | succ i' =>
      rw [List.take_succ_cons]
      by_cases hc : assertion_env_check token zone wind (env start) = true
      · have h' : assertion_env_check token zone wind (env (start + 1 + i')) = false := by
          have harith : start + 1 + i' = start + (i' + 1) := by omega
          rw [harith]
          exact h
        have hrec := ih (start + 1) i' h'
        simp [assertion_attempt, hc, hrec]
      · simp [assertion_attempt, hc]

/-- Helper: when the attempt loop reports success, some enqueued lamp in
its output actually succeeded. -/
theorem assertion_attempts_success_has_ack (token : Nat) (zone wind : String)
    (ll : Option Nat) (cmds : List (Nat × Bool)) (env : Nat → Nat → LampEnv)
    (so : Nat → Nat → Bool) :
    ∀ fuel a, (assertion_attempts token zone wind ll cmds env so fuel a).2 = true →
      ∃ x ∈ (assertion_attempts token zone wind ll cmds env so fuel a).1,
        x.success = true := by
  intro fuel
  induction fuel with
  | zero =>
    intro a h
    simp [assertion_attempts] at h
  | succ f ih =>
    intro a h
    simp only [assertion_attempts] at h ⊢
    by_cases hc : 0 < assertion_sent_count
        (assertion_attempt token zone wind ll (env a) (so a) 0 cmds)
    · rw [if_pos hc] at h ⊢
      rcases List.exists_mem_of_length_pos hc with ⟨x, hx⟩
      exact ⟨x, (List.mem_filter.mp hx).1, (List.mem_filter.mp hx).2⟩
    · rw [if_neg hc] at h ⊢
      have hok : (assertion_attempts token zone wind ll cmds env so f (a + 1)).2 = true := h
      rcases ih (a + 1) hok with ⟨x, hx, hsx⟩
      exact ⟨x, List.mem_append_right _ hx, hsx⟩

/-- C6: an assertion cycle emits nothing when paused, when deactivation is
in progress, when no zone is registered, or when less than 15 s have
passed since `last_assert_time`; within an attempt a failed per-lamp
re-check truncates the enqueue sequence at that lamp; and the registered
`last_assert_time` changes only when some lamp enqueue succeeded and the
registry still holds the same `(zone, wind)` at the final check. -/
theorem C6_assertion_cycle_discipline :
    (∀ dip now s env so fin,
      (s.assertion_enabled = false ∨ dip = true ∨ s.active_zone = none) →
      zone_assertion_tick dip now s env so fin = ([], s))
    ∧ (∀ dip now s az env so fin, s.active_zone = some az →
        now - az.last_assert_time < 15 →
        zone_assertion_tick dip now s env so fin = ([], s))
    ∧ (∀ token zone wind ll env so cmds i,
        assertion_env_check token zone wind (env i) = false →
        assertion_attempt token zone wind ll env so 0 cmds =
          assertion_attempt token zone wind ll env so 0 (cmds.take i))
    ∧ (∀ dip now s env so fin,
        (zone_assertion_tick dip now s env so fin).2 ≠ s →
        ∃ az, s.active_zone = some az
          ∧ fin = some (az.zone_name, az.wind_direction)
          ∧ (zone_assertion_tick dip now s env so fin).2.active_zone =
              some { az with last_assert_time := now }
          ∧ ∃ x ∈ (zone_assertion_tick dip now s env so fin).1, x.success = true) := by
  refine ⟨?_, ?_, ?_, ?_⟩
  · intro dip now s env so fin h
    unfold zone_assertion_tick
    rcases h with h | h | h
    · simp [h]
    · simp [h]
    · simp [h]
  · intro dip now s az env so fin haz hlt
    unfold zone_assertion_tick
    simp [haz, hlt]
  · intro token zone wind ll env so cmds i h
    have h0 : assertion_env_check token zone wind (env (0 + i)) = false := by
      simpa using h
    exact assertion_attempt_abort_take token zone wind ll env so cmds 0 i h0
  · intro dip now s env so fin hneq
    unfold zone_assertion_tick at hneq ⊢
    by_cases hen : s.assertion_enabled = true
    swap
    · rw [if_pos hen] at hneq
      exact absurd rfl hneq
    · rw [if_neg (not_not_intro hen)] at hneq ⊢
      by_cases hdip : dip = true
      · rw [if_pos hdip] at hneq
        exact absurd rfl hneq
      · rw [if_neg hdip] at hneq ⊢
        dsimp only at hneq ⊢
        rcases haz : s.active_zone with _ | az
        · rw [haz] at hneq
          exact absurd rfl hneq
        · rw [haz] at hneq
          dsimp only at hneq ⊢
          by_cases hlt : now - az.last_assert_time < 15
          · rw [if_pos hlt] at hneq
            exact absurd rfl hneq
          · rw [if_neg hlt] at hneq ⊢
            by_cases hemp : az.commands.isEmpty = true
            · rw [if_pos hemp] at hneq
              exact absurd rfl hneq
            · rw [if_neg hemp] at hneq ⊢
              by_cases hfin : ((assertion_attempts s.assertion_cancel_epoch az.zone_name
                    az.wind_direction
                    (((az.commands.filter fun p => p.2).map fun p => p.1).max?)
                    az.commands env so 3 0).2
                  && (fin == some (az.zone_name, az.wind_direction))) = true
              · have hsplit := hfin
                rw [Bool.and_eq_true] at hsplit
                have hsucc := hsplit.1
                have hfineq : fin = some (az.zone_name, az.wind_direction) :=
                  beq_iff_eq.mp hsplit.2
                refine ⟨az, rfl, hfineq, ?_, ?_⟩
                · rw [if_pos hfin]
                · rcases assertion_attempts_success_has_ack s.assertion_cancel_epoch
                      az.zone_name az.wind_direction
                      (((az.commands.filter fun p => p.2).map fun p => p.1).max?)
                      az.commands env so 3 0 hsucc with ⟨x, hx, hsx⟩
                  exact ⟨x, hx, hsx⟩
              · rw [if_neg hfin] at hneq
                exact absurd rfl hneq

/-- C6 witness: a paused state ticks to no emissions and an unchanged
state. -/
theorem C6_assertion_cycle_discipline_witness :
    zone_assertion_tick false 100 ⟨some ⟨"Zone A", "N-S", 95, [(6, true)]⟩, 0, false⟩
      (fun _ _ => ⟨true, 0, some ("Zone A", "N-S")⟩) (fun _ _ => true) none =
      ([], ⟨some ⟨"Zone A", "N-S", 95, [(6, true)]⟩, 0, false⟩) :=
  C6_assertion_cycle_discipline.1 false 100
    ⟨some ⟨"Zone A", "N-S", 95, [(6, true)]⟩, 0, false⟩
    (fun _ _ => ⟨true, 0, some ("Zone A", "N-S")⟩) (fun _ _ => true) none
    (Or.inl rfl)

end EGS
